import Mathlib

/-!
Verification development for the OpenDataMCP providers
(`src/odmcp/providers/ch_sbb.py` and `src/odmcp/providers/glob_screeners.py`).

The Python modules are shallowly embedded:

* a tool's raw argument bag (the `arguments` dict) is an association list of
  `String × Value`;
* pydantic model validation (`Model(**bag)`) is embedded as a two-pass
  validator: an error-collecting pass over the declared fields (pydantic
  collects all field errors, in declaration order) followed by a build pass
  applying declared defaults;
* the external HTTP exchange performed by each fetch function is an oracle
  argument (`HttpResult`): the embedded fetch turns the oracle's outcome into
  the value the Python function would return or the exception it would raise;
* Python exceptions are the inductive `Exn`.  The constructors
  `upstreamUnavailable`, `upstreamMalformedResponse` and `internalFault`
  embed the classified error kinds named by the specification; they exist so
  that statements about them can be made, the embedded code itself only
  produces the unclassified kinds (`validationError`, `httpStatusError`,
  `connectError`, `typeError`);
* each handler's `try/except` block (log the failure, re-raise it) is the
  shared combinator `tryExcept`.

Modelling notes kept throughout: numeric JSON payload values are embedded as
integers; pydantic's lax string-to-number coercions are not modelled (the
claims under study only exercise exact-typed values); `datetime` fields are
carried as strings.
-/

/-- A raw value inside a tool-call argument bag (a Python dict value). -/
inductive Value
  | str (s : String)
  | int (n : Int)
  | bool (b : Bool)
  | none
deriving DecidableEq, Repr

/-- A raw argument bag: the `arguments : dict[str, Any] | None` payload,
as an association list. -/
def ArgBag := List (String × Value)

/-- Dict lookup on an argument bag (first binding wins). -/
def lookupArg : ArgBag → String → Option Value
  | [], _ => Option.none
  | (k, v) :: rest, name => if k = name then Option.some v else lookupArg rest name

/-- A JSON document, as returned by `response.json()`.  Numbers are embedded
as integers. -/
inductive Json
  | null
  | bool (b : Bool)
  | int (n : Int)
  | str (s : String)
  | arr (items : List Json)
  | obj (fields : List (String × Json))

/-- Lookup of a key in a JSON object's field list. -/
def jlookup : List (String × Json) → String → Option Json
  | [], _ => Option.none
  | (k, v) :: rest, name => if k = name then Option.some v else jlookup rest name

/-- Which bound of a constrained numeric field was violated. -/
inductive BoundKind
  | ge
  | le
deriving DecidableEq, Repr

/-- The reason a single field failed pydantic validation. -/
inductive ValErrKind
  | out_of_bound (which : BoundKind) (bound : Int)
  | wrong_type
  | missing
deriving DecidableEq, Repr

/-- One entry of a pydantic `ValidationError`: the offending field and why
it was rejected. -/
structure ValidationError where
  field : String
  kind : ValErrKind
deriving DecidableEq, Repr

/-- A Python exception, as observable at the handler boundary.  The last three
constructors are the classified error kinds named by the specification's
error taxonomy; the embedded code never constructs them. -/
inductive Exn
  | validationError (errs : List ValidationError)
  | httpStatusError (status : Nat)
  | connectError
  | typeError
  | upstreamUnavailable
  | upstreamMalformedResponse
  | internalFault
deriving DecidableEq, Repr

/-- Whether an exception is one of the specification's classified handler
error kinds (`UpstreamUnavailable`, `UpstreamMalformedResponse`,
`InternalFault`). -/
def Exn.isClassified : Exn → Bool
  | .upstreamUnavailable => true
  | .upstreamMalformedResponse => true
  | .internalFault => true
  | _ => false

/-- Short human-readable text of an exception, used in the handlers'
`log.error(f"...: {e}")` lines. -/
def describeExn : Exn → String
  | .validationError errs => "ValidationError (" ++ toString errs.length ++ " errors)"
  | .httpStatusError status => "HTTPStatusError " ++ toString status
  | .connectError => "ConnectError"
  | .typeError => "TypeError"
  | .upstreamUnavailable => "UpstreamUnavailable"
  | .upstreamMalformedResponse => "UpstreamMalformedResponse"
  | .internalFault => "InternalFault"

/-! ## Per-field validation checks (the error-collecting pass)

Each mirrors how pydantic treats one declared field of a model given the raw
bag: absent optional fields contribute no error, present values must have the
declared type, constrained ints are bounds-checked. -/

/-- Check of an `Optional[str] = None` field: absent or `None` is fine, a
string is fine, anything else is a type error. -/
def checkOptStrField (bag : ArgBag) (name : String) : List ValidationError :=
  match lookupArg bag name with
  | Option.none => []
  | Option.some (.str _) => []
  | Option.some .none => []
  | Option.some _ => [⟨name, .wrong_type⟩]

/-- Check of a non-optional `str` field with a default: absent is fine
(default applies), a string is fine, anything else (including `None`) is a
type error. -/
def checkStrField (bag : ArgBag) (name : String) : List ValidationError :=
  match lookupArg bag name with
  | Option.none => []
  | Option.some (.str _) => []
  | Option.some _ => [⟨name, .wrong_type⟩]

/-- Check of an `int` field with a default and optional `ge`/`le` bounds. -/
def checkIntField (bag : ArgBag) (name : String) (lo hi : Option Int) :
    List ValidationError :=
  match lookupArg bag name with
  | Option.none => []
  | Option.some (.int n) =>
      (match lo with
       | Option.some l => if n < l then [⟨name, .out_of_bound .ge l⟩] else []
       | Option.none => []) ++
      (match hi with
       | Option.some h => if h < n then [⟨name, .out_of_bound .le h⟩] else []
       | Option.none => [])
  | Option.some _ => [⟨name, .wrong_type⟩]

/-- Check of a `bool` field with a default. -/
def checkBoolField (bag : ArgBag) (name : String) : List ValidationError :=
  match lookupArg bag name with
  | Option.none => []
  | Option.some (.bool _) => []
  | Option.some _ => [⟨name, .wrong_type⟩]

/-! ## Field extraction (the build pass, applying declared defaults) -/

/-- Extract an `Optional[str]` field; absent (or `None`) stays `None`. -/
def getOptStr (bag : ArgBag) (name : String) : Option String :=
  match lookupArg bag name with
  | Option.some (.str s) => Option.some s
  | _ => Option.none

/-- Extract a `str` field, applying the declared default when absent. -/
def getStr (bag : ArgBag) (name : String) (dflt : String) : String :=
  match lookupArg bag name with
  | Option.some (.str s) => s
  | _ => dflt

/-- Extract an `int` field, applying the declared default when absent. -/
def getInt (bag : ArgBag) (name : String) (dflt : Int) : Int :=
  match lookupArg bag name with
  | Option.some (.int n) => n
  | _ => dflt

/-- Extract a `bool` field, applying the declared default when absent. -/
def getBool (bag : ArgBag) (name : String) (dflt : Bool) : Bool :=
  match lookupArg bag name with
  | Option.some (.bool b) => b
  | _ => dflt

/-! ## ch_sbb.py — Rail Traffic Information -/

/-- `TrafficInfoParams` (ch_sbb.py).  `where_` embeds the Python field
`where`, a reserved word in Lean. -/
structure TrafficInfoParams where
  select : Option String
  where_ : Option String
  group_by : Option String
  order_by : Option String
  limit : Int
  offset : Int
  refine : Option String
  exclude : Option String
  lang : Option String
  timezone : String
  include_links : Bool
  include_app_metas : Bool
deriving DecidableEq, Repr

/-- The declared field names of `TrafficInfoParams`, in declaration order. -/
def trafficInfoFieldNames : List String :=
  ["select", "where", "group_by", "order_by", "limit", "offset",
   "refine", "exclude", "lang", "timezone", "include_links", "include_app_metas"]

/-- Error-collecting pass of `TrafficInfoParams(**bag)`:
`limit` carries `ge=1, le=100`, `offset` carries `ge=0`. -/
def trafficInfoErrors (bag : ArgBag) : List ValidationError :=
  checkOptStrField bag "select" ++
  checkOptStrField bag "where" ++
  checkOptStrField bag "group_by" ++
  checkOptStrField bag "order_by" ++
  checkIntField bag "limit" (Option.some 1) (Option.some 100) ++
  checkIntField bag "offset" (Option.some 0) Option.none ++
  checkOptStrField bag "refine" ++
  checkOptStrField bag "exclude" ++
  checkOptStrField bag "lang" ++
  checkStrField bag "timezone" ++
  checkBoolField bag "include_links" ++
  checkBoolField bag "include_app_metas"

/-- Build pass of `TrafficInfoParams(**bag)`, applying the declared
defaults (`limit=10`, `offset=0`, `timezone="UTC"`, flags `False`). -/
def buildTrafficInfoParams (bag : ArgBag) : TrafficInfoParams :=
  { select := getOptStr bag "select"
    where_ := getOptStr bag "where"
    group_by := getOptStr bag "group_by"
    order_by := getOptStr bag "order_by"
    limit := getInt bag "limit" 10
    offset := getInt bag "offset" 0
    refine := getOptStr bag "refine"
    exclude := getOptStr bag "exclude"
    lang := getOptStr bag "lang"
    timezone := getStr bag "timezone" "UTC"
    include_links := getBool bag "include_links" false
    include_app_metas := getBool bag "include_app_metas" false }

/-- `TrafficInfoParams(**bag)`: succeeds with defaults applied, or raises a
pydantic `ValidationError` listing every offending field. -/
def validateTrafficInfoParams (bag : ArgBag) :
    Except (List ValidationError) TrafficInfoParams :=
  let errs := trafficInfoErrors bag
  if errs = [] then Except.ok (buildTrafficInfoParams bag) else Except.error errs

/-- `TrafficInfoResult` (ch_sbb.py): all fields optional, defaulting to
`None`.  The `datetime` fields (`published`, `validitybegin`, `validityend`)
are carried as strings. -/
structure TrafficInfoResult where
  title : Option String
  link : Option String
  description : Option String
  published : Option String
  author : Option String
  validitybegin : Option String
  validityend : Option String
  description_html : Option String
deriving DecidableEq, Repr

/-- `TrafficInfoResponse` (ch_sbb.py): `total_count` and `results` are
required. -/
structure TrafficInfoResponse where
  total_count : Int
  results : List TrafficInfoResult
deriving DecidableEq, Repr

/-- Error check of one optional string-valued field of a result item. -/
def checkJOptStr (fields : List (String × Json)) (name : String) :
    List ValidationError :=
  match jlookup fields name with
  | Option.none => []
  | Option.some (.str _) => []
  | Option.some .null => []
  | Option.some _ => [⟨name, .wrong_type⟩]

/-- Extract an optional string-valued field of a result item. -/
def getJOptStr (fields : List (String × Json)) (name : String) : Option String :=
  match jlookup fields name with
  | Option.some (.str s) => Option.some s
  | _ => Option.none

/-- Error-collecting pass for one element of `results` parsed as a
`TrafficInfoResult`: a non-object element is itself a validation error. -/
def trafficInfoResultErrors (j : Json) : List ValidationError :=
  match j with
  | .obj fields =>
      checkJOptStr fields "title" ++
      checkJOptStr fields "link" ++
      checkJOptStr fields "description" ++
      checkJOptStr fields "published" ++
      checkJOptStr fields "author" ++
      checkJOptStr fields "validitybegin" ++
      checkJOptStr fields "validityend" ++
      checkJOptStr fields "description_html"
  | _ => [⟨"results", .wrong_type⟩]

/-- Build pass for one element of `results` as a `TrafficInfoResult`. -/
def buildTrafficInfoResult (j : Json) : TrafficInfoResult :=
  match j with
  | .obj fields =>
      { title := getJOptStr fields "title"
        link := getJOptStr fields "link"
        description := getJOptStr fields "description"
        published := getJOptStr fields "published"
        author := getJOptStr fields "author"
        validitybegin := getJOptStr fields "validitybegin"
        validityend := getJOptStr fields "validityend"
        description_html := getJOptStr fields "description_html" }
  | _ =>
      { title := Option.none, link := Option.none, description := Option.none
        published := Option.none, author := Option.none
        validitybegin := Option.none, validityend := Option.none
        description_html := Option.none }

/-- Error-collecting pass of `TrafficInfoResponse(**json)` over a JSON
object's fields: `total_count` must be a present integer, `results` a
present array of well-shaped items. -/
def trafficInfoResponseErrors (fields : List (String × Json)) :
    List ValidationError :=
  (match jlookup fields "total_count" with
   | Option.none => [⟨"total_count", .missing⟩]
   | Option.some (.int _) => []
   | Option.some _ => [⟨"total_count", .wrong_type⟩]) ++
  (match jlookup fields "results" with
   | Option.none => [⟨"results", .missing⟩]
   | Option.some (.arr items) => items.flatMap trafficInfoResultErrors
   | Option.some _ => [⟨"results", .wrong_type⟩])

/-- Build pass of `TrafficInfoResponse(**json)`. -/
def buildTrafficInfoResponse (fields : List (String × Json)) :
    TrafficInfoResponse :=
  { total_count :=
      (match jlookup fields "total_count" with
       | Option.some (.int n) => n
       | _ => 0)
    results :=
      (match jlookup fields "results" with
       | Option.some (.arr items) => items.map buildTrafficInfoResult
       | _ => []) }

/-- `TrafficInfoResponse(**response.json())`: a non-object payload fails the
`**` expansion with a `TypeError`; an object payload is validated field by
field, raising a pydantic `ValidationError` when it does not fit. -/
def parseTrafficInfoResponse (j : Json) : Except Exn TrafficInfoResponse :=
  match j with
  | .obj fields =>
      let errs := trafficInfoResponseErrors fields
      if errs = [] then Except.ok (buildTrafficInfoResponse fields)
      else Except.error (.validationError errs)
  | _ => Except.error .typeError

/-! ## The HTTP exchange oracle and the generic fetch skeleton -/

/-- Outcome of the single `httpx.get` a fetch function performs: either a
response with a status code and JSON body, or a transport-level failure. -/
inductive HttpResult
  | response (status : Nat) (body : Json)
  | netError

/-- The observable request a fetch function issues: the endpoint URL and the
`params=` query mapping passed to `httpx.get`. -/
structure HttpRequest where
  url : String
  query : List (String × Value)

/-- Skeleton shared by every ch_sbb fetch function:
`httpx.get(endpoint, params=...)`, then `response.raise_for_status()`
(raising `HTTPStatusError` for any status ≥ 400, and `ConnectError` when the
host was unreachable), then `Model(**response.json())` via `parse`. -/
def httpFetch (endpoint : String) (query : List (String × Value))
    (parse : Json → Except Exn α) (http : HttpResult) :
    HttpRequest × Except Exn α :=
  (⟨endpoint, query⟩,
   match http with
   | .netError => Except.error .connectError
   | .response status body =>
       if 400 ≤ status then Except.error (.httpStatusError status)
       else parse body)

/-- `BASE_URL` (ch_sbb.py). -/
def BASE_URL : String := "https://data.sbb.ch/api/explore/v2.1"

/-- Entry of `model_dump(exclude_none=True)` for one optional field. -/
def optEntry (name : String) : Option String → List (String × Value)
  | Option.none => []
  | Option.some s => [(name, .str s)]

/-- `params.model_dump(exclude_none=True)` for `TrafficInfoParams`: declared
fields in declaration order, `None`-valued optionals excluded. -/
def TrafficInfoParams.model_dump_exclude_none (p : TrafficInfoParams) :
    List (String × Value) :=
  optEntry "select" p.select ++
  optEntry "where" p.where_ ++
  optEntry "group_by" p.group_by ++
  optEntry "order_by" p.order_by ++
  [("limit", .int p.limit), ("offset", .int p.offset)] ++
  optEntry "refine" p.refine ++
  optEntry "exclude" p.exclude ++
  optEntry "lang" p.lang ++
  [("timezone", .str p.timezone),
   ("include_links", .bool p.include_links),
   ("include_app_metas", .bool p.include_app_metas)]

/-- `fetch_rail_traffic_info` (ch_sbb.py).  The first component is the
request it issues; the second the value returned or exception raised. -/
def fetch_rail_traffic_info (params : TrafficInfoParams) (http : HttpResult) :
    HttpRequest × Except Exn TrafficInfoResponse :=
  httpFetch (BASE_URL ++ "/catalog/datasets/rail-traffic-information/records")
    params.model_dump_exclude_none parseTrafficInfoResponse http

/-! ## Content blocks and the handler try/except combinator -/

/-- One `mcp.types` content block: the tagged variant over text, image and
embedded-resource contents. -/
inductive ContentBlock
  | text (s : String)
  | image (data : String)
  | embeddedResource (data : String)
deriving DecidableEq, Repr

deriving instance DecidableEq for Except

/-- What a handler invocation produces: the value returned or exception
propagated, together with the `log.error` lines it emitted. -/
structure HandlerOutput where
  result : Except Exn (List ContentBlock)
  logLines : List String
deriving DecidableEq, Repr

/-- The handlers' shared `try/except Exception` shape: on failure, log one
line (the message prefix followed by the exception text) and re-raise the
same exception. -/
def tryExcept (attempt : Except Exn (List ContentBlock)) (logContext : String) :
    HandlerOutput :=
  match attempt with
  | Except.ok blocks => ⟨Except.ok blocks, []⟩
  | Except.error e => ⟨Except.error e, [logContext ++ describeExn e]⟩

/-- The `**arguments` expansion on a possibly-`None` arguments dict: `None`
is not a mapping, so the call raises `TypeError`. -/
def expandKwargs : Option ArgBag → Except Exn ArgBag
  | Option.none => Except.error .typeError
  | Option.some bag => Except.ok bag

/-- The `(arguments or {})` idiom: `None` is replaced by the empty dict. -/
def argsOrEmpty : Option ArgBag → ArgBag
  | Option.none => []
  | Option.some bag => bag

/-! ## Rendering (`str(response)` in the text content block)

pydantic's `str` of a model prints `field=value` pairs; the renderers below
reproduce that shape.  Apostrophes around string reprs are written via the
`\x27` escape. -/

/-- Render an optional string the way Python reprs it inside a model. -/
def renderOptStr : Option String → String
  | Option.none => "None"
  | Option.some s => "\x27" ++ s ++ "\x27"

/-- `str` of one `TrafficInfoResult`. -/
def renderTrafficInfoResult (r : TrafficInfoResult) : String :=
  "TrafficInfoResult(title=" ++ renderOptStr r.title ++
  ", link=" ++ renderOptStr r.link ++
  ", description=" ++ renderOptStr r.description ++
  ", published=" ++ renderOptStr r.published ++
  ", author=" ++ renderOptStr r.author ++
  ", validitybegin=" ++ renderOptStr r.validitybegin ++
  ", validityend=" ++ renderOptStr r.validityend ++
  ", description_html=" ++ renderOptStr r.description_html ++ ")"

/-- `str` of the `results` list of a `TrafficInfoResponse`. -/
def renderTrafficInfoResults : List TrafficInfoResult → String
  | [] => ""
  | [r] => renderTrafficInfoResult r
  | r :: rest => renderTrafficInfoResult r ++ ", " ++ renderTrafficInfoResults rest

/-- `str(traffic_info_response)`. -/
def renderTrafficInfoResponse (r : TrafficInfoResponse) : String :=
  "total_count=" ++ toString r.total_count ++
  " results=[" ++ renderTrafficInfoResults r.results ++ "]"

/-- The validate-fetch-render sequence shared by every handler's `try` body:
a failed validation raises the pydantic `ValidationError`, a failed fetch
propagates its exception, and a successful fetch yields exactly one text
content block holding `str(response)`. -/
def pipeline (validated : Except (List ValidationError) V)
    (fetch : V → Except Exn R) (render : R → String) :
    Except Exn (List ContentBlock) :=
  match validated with
  | Except.error errs => Except.error (.validationError errs)
  | Except.ok params =>
      match fetch params with
      | Except.error e => Except.error e
      | Except.ok resp => Except.ok [ContentBlock.text (render resp)]

/-- The body of `handle_rail_traffic_info`'s `try` block, with the fetch it
performs abstracted into the `fetch` argument:
`TrafficInfoParams(**arguments)` (note: no `or {}` here — a `None`
arguments dict raises `TypeError` at the `**` expansion, before
validation), then the fetch, then one text content block holding
`str(traffic_info_response)`. -/
def rail_traffic_attempt_gen
    (fetch : TrafficInfoParams → Except Exn TrafficInfoResponse)
    (arguments : Option ArgBag) : Except Exn (List ContentBlock) :=
  match expandKwargs arguments with
  | Except.error e => Except.error e
  | Except.ok bag =>
      pipeline (validateTrafficInfoParams bag) fetch renderTrafficInfoResponse

/-- `handle_rail_traffic_info` with its fetch function as a parameter. -/
def handle_rail_traffic_info_gen
    (fetch : TrafficInfoParams → Except Exn TrafficInfoResponse)
    (arguments : Option ArgBag) : HandlerOutput :=
  tryExcept (rail_traffic_attempt_gen fetch arguments)
    "Error fetching rail traffic info: "

/-- `handle_rail_traffic_info` (ch_sbb.py), its single HTTP exchange driven
by the `http` oracle. -/
def handle_rail_traffic_info (arguments : Option ArgBag) (http : HttpResult) :
    HandlerOutput :=
  handle_rail_traffic_info_gen
    (fun p => (fetch_rail_traffic_info p http).2) arguments

/-! ## ch_sbb.py — Railway Lines and Rolling Stock

`RailwayLineParams` and `RollingStockParams` declare the same six query
fields (`select/where/group_by/order_by` optional strings, `limit` with
`ge=1, le=100`, `offset` with `ge=0`); the shared passes below are
instantiated once per class. -/

/-- Error-collecting pass shared by `RailwayLineParams` and
`RollingStockParams`. -/
def basicQueryErrors (bag : ArgBag) : List ValidationError :=
  checkOptStrField bag "select" ++
  checkOptStrField bag "where" ++
  checkOptStrField bag "group_by" ++
  checkOptStrField bag "order_by" ++
  checkIntField bag "limit" (Option.some 1) (Option.some 100) ++
  checkIntField bag "offset" (Option.some 0) Option.none

/-- `RailwayLineParams` (ch_sbb.py). -/
structure RailwayLineParams where
  select : Option String
  where_ : Option String
  group_by : Option String
  order_by : Option String
  limit : Int
  offset : Int
deriving DecidableEq, Repr

/-- `RollingStockParams` (ch_sbb.py). -/
structure RollingStockParams where
  select : Option String
  where_ : Option String
  group_by : Option String
  order_by : Option String
  limit : Int
  offset : Int
deriving DecidableEq, Repr

/-- Build pass shared by the six-field parameter classes. -/
def buildBasicQuery
    (mk : Option String → Option String → Option String → Option String →
      Int → Int → α) (bag : ArgBag) : α :=
  mk (getOptStr bag "select") (getOptStr bag "where")
    (getOptStr bag "group_by") (getOptStr bag "order_by")
    (getInt bag "limit" 10) (getInt bag "offset" 0)

/-- `RailwayLineParams(**bag)`. -/
def validateRailwayLineParams (bag : ArgBag) :
    Except (List ValidationError) RailwayLineParams :=
  let errs := basicQueryErrors bag
  if errs = [] then Except.ok (buildBasicQuery RailwayLineParams.mk bag)
  else Except.error errs

/-- `RollingStockParams(**bag)`. -/
def validateRollingStockParams (bag : ArgBag) :
    Except (List ValidationError) RollingStockParams :=
  let errs := basicQueryErrors bag
  if errs = [] then Except.ok (buildBasicQuery RollingStockParams.mk bag)
  else Except.error errs

/-- `model_dump(exclude_none=True)` shared by the six-field classes. -/
def basicQueryDump (select where_ group_by order_by : Option String)
    (limit offset : Int) : List (String × Value) :=
  optEntry "select" select ++
  optEntry "where" where_ ++
  optEntry "group_by" group_by ++
  optEntry "order_by" order_by ++
  [("limit", .int limit), ("offset", .int offset)]

/-! ## ch_sbb.py — the five identically-shaped endpoint parameter classes

`StationUsersParams`, `TargetActualComparedParams`, `StationFurnitureParams`,
`StationServiceParams` and `StoresParams` all declare the same eleven fields
(the six query fields plus `refine/exclude/lang` optional strings and the two
boolean flags, no `timezone`); the shared passes below are instantiated once
per class. -/

/-- Error-collecting pass shared by the five eleven-field classes. -/
def stdQueryErrors (bag : ArgBag) : List ValidationError :=
  checkOptStrField bag "select" ++
  checkOptStrField bag "where" ++
  checkOptStrField bag "group_by" ++
  checkOptStrField bag "order_by" ++
  checkIntField bag "limit" (Option.some 1) (Option.some 100) ++
  checkIntField bag "offset" (Option.some 0) Option.none ++
  checkOptStrField bag "refine" ++
  checkOptStrField bag "exclude" ++
  checkOptStrField bag "lang" ++
  checkBoolField bag "include_links" ++
  checkBoolField bag "include_app_metas"

/-- Build pass shared by the five eleven-field classes. -/
def buildStdQuery
    (mk : Option String → Option String → Option String → Option String →
      Int → Int → Option String → Option String → Option String →
      Bool → Bool → α) (bag : ArgBag) : α :=
  mk (getOptStr bag "select") (getOptStr bag "where")
    (getOptStr bag "group_by") (getOptStr bag "order_by")
    (getInt bag "limit" 10) (getInt bag "offset" 0)
    (getOptStr bag "refine") (getOptStr bag "exclude") (getOptStr bag "lang")
    (getBool bag "include_links" false) (getBool bag "include_app_metas" false)

/-- `model_dump(exclude_none=True)` shared by the eleven-field classes. -/
def stdQueryDump (select where_ group_by order_by : Option String)
    (limit offset : Int) (refine exclude lang : Option String)
    (include_links include_app_metas : Bool) : List (String × Value) :=
  optEntry "select" select ++
  optEntry "where" where_ ++
  optEntry "group_by" group_by ++
  optEntry "order_by" order_by ++
  [("limit", .int limit), ("offset", .int offset)] ++
  optEntry "refine" refine ++
  optEntry "exclude" exclude ++
  optEntry "lang" lang ++
  [("include_links", .bool include_links),
   ("include_app_metas", .bool include_app_metas)]

/-- `StationUsersParams` (ch_sbb.py). -/
structure StationUsersParams where
  select : Option String
  where_ : Option String
  group_by : Option String
  order_by : Option String
  limit : Int
  offset : Int
  refine : Option String
  exclude : Option String
  lang : Option String
  include_links : Bool
  include_app_metas : Bool
deriving DecidableEq, Repr

/-- `TargetActualComparedParams` (ch_sbb.py). -/
structure TargetActualComparedParams where
  select : Option String
  where_ : Option String
  group_by : Option String
  order_by : Option String
  limit : Int
  offset : Int
  refine : Option String
  exclude : Option String
  lang : Option String
  include_links : Bool
  include_app_metas : Bool
deriving DecidableEq, Repr

/-- `StationFurnitureParams` (ch_sbb.py). -/
structure StationFurnitureParams where
  select : Option String
  where_ : Option String
  group_by : Option String
  order_by : Option String
  limit : Int
  offset : Int
  refine : Option String
  exclude : Option String
  lang : Option String
  include_links : Bool
  include_app_metas : Bool
deriving DecidableEq, Repr

/-- `StationServiceParams` (ch_sbb.py). -/
structure StationServiceParams where
  select : Option String
  where_ : Option String
  group_by : Option String
  order_by : Option String
  limit : Int
  offset : Int
  refine : Option String
  exclude : Option String
  lang : Option String
  include_links : Bool
  include_app_metas : Bool
deriving DecidableEq, Repr

/-- `StoresParams` (ch_sbb.py). -/
structure StoresParams where
  select : Option String
  where_ : Option String
  group_by : Option String
  order_by : Option String
  limit : Int
  offset : Int
  refine : Option String
  exclude : Option String
  lang : Option String
  include_links : Bool
  include_app_metas : Bool
deriving DecidableEq, Repr

/-- `StationUsersParams(**bag)`. -/
def validateStationUsersParams (bag : ArgBag) :
    Except (List ValidationError) StationUsersParams :=
  let errs := stdQueryErrors bag
  if errs = [] then Except.ok (buildStdQuery StationUsersParams.mk bag)
  else Except.error errs

/-- `TargetActualComparedParams(**bag)`. -/
def validateTargetActualComparedParams (bag : ArgBag) :
    Except (List ValidationError) TargetActualComparedParams :=
  let errs := stdQueryErrors bag
  if errs = [] then Except.ok (buildStdQuery TargetActualComparedParams.mk bag)
  else Except.error errs

/-- `StationFurnitureParams(**bag)`. -/
def validateStationFurnitureParams (bag : ArgBag) :
    Except (List ValidationError) StationFurnitureParams :=
  let errs := stdQueryErrors bag
  if errs = [] then Except.ok (buildStdQuery StationFurnitureParams.mk bag)
  else Except.error errs

/-- `StationServiceParams(**bag)`. -/
def validateStationServiceParams (bag : ArgBag) :
    Except (List ValidationError) StationServiceParams :=
  let errs := stdQueryErrors bag
  if errs = [] then Except.ok (buildStdQuery StationServiceParams.mk bag)
  else Except.error errs

/-- `StoresParams(**bag)`. -/
def validateStoresParams (bag : ArgBag) :
    Except (List ValidationError) StoresParams :=
  let errs := stdQueryErrors bag
  if errs = [] then Except.ok (buildStdQuery StoresParams.mk bag)
  else Except.error errs

/-! ## Abstracted response models

For the endpoints other than rail-traffic-info, item-level field validation
of the per-item pydantic models (`RailwayLineResult`, `RollingStockResult`,
`StationUsersResult`, `TargetActualComparedResult`,
`StationFurnitureResult`, `StationServiceResult`, `StoresResult`,
`FincanceScreenerResult`) is abstracted: the `results`/`quotes` items are
carried as raw JSON values.  The required top-level shape (`total_count`
integer plus `results` array, respectively `count` plus `quotes`) is
validated as the source does. -/

/-- `RailwayLineResponse` (ch_sbb.py), items abstracted. -/
structure RailwayLineResponse where
  total_count : Int
  results : List Json

/-- `RollingStockResponse` (ch_sbb.py), items abstracted. -/
structure RollingStockResponse where
  total_count : Int
  results : List Json

/-- `StationUsersResponse` (ch_sbb.py), items abstracted. -/
structure StationUsersResponse where
  total_count : Int
  results : List Json

/-- `TargetActualComparedResponse` (ch_sbb.py), items abstracted. -/
structure TargetActualComparedResponse where
  total_count : Int
  results : List Json

/-- `StationFurnitureResponse` (ch_sbb.py), items abstracted. -/
structure StationFurnitureResponse where
  total_count : Int
  results : List Json

/-- `StationServiceResponse` (ch_sbb.py), items abstracted. -/
structure StationServiceResponse where
  total_count : Int
  results : List Json

/-- `StoresResponse` (ch_sbb.py), items abstracted. -/
structure StoresResponse where
  total_count : Int
  results : List Json

/-- `FincanceScreenerResponse` (glob_screeners.py): required `count` and
`quotes`, items abstracted. -/
structure FincanceScreenerResponse where
  count : Int
  quotes : List Json

/-- Error-collecting pass of `Model(**json)` for a response model whose
required fields are an integer count and an array of results, under the
given key names. -/
def countResultsErrors (countKey resultsKey : String)
    (fields : List (String × Json)) : List ValidationError :=
  (match jlookup fields countKey with
   | Option.none => [⟨countKey, .missing⟩]
   | Option.some (.int _) => []
   | Option.some _ => [⟨countKey, .wrong_type⟩]) ++
  (match jlookup fields resultsKey with
   | Option.none => [⟨resultsKey, .missing⟩]
   | Option.some (.arr _) => []
   | Option.some _ => [⟨resultsKey, .wrong_type⟩])

/-- `Model(**json)` for a count-plus-results response model: a non-object
payload fails the `**` expansion with `TypeError`; an object payload is
checked for the two required fields, raising a pydantic `ValidationError`
when they are missing or ill-typed. -/
def parseCountResults (countKey resultsKey : String)
    (mk : Int → List Json → α) (j : Json) : Except Exn α :=
  match j with
  | .obj fields =>
      let errs := countResultsErrors countKey resultsKey fields
      if errs = [] then
        Except.ok
          (mk (match jlookup fields countKey with
               | Option.some (.int n) => n
               | _ => 0)
              (match jlookup fields resultsKey with
               | Option.some (.arr items) => items
               | _ => []))
      else Except.error (.validationError errs)
  | _ => Except.error .typeError

/-! ## Rendering of raw JSON values (Python repr style) -/

mutual

/-- Python-repr-style text of a raw JSON value. -/
def renderJson : Json → String
  | .null => "None"
  | .bool true => "True"
  | .bool false => "False"
  | .int n => toString n
  | .str s => "\x27" ++ s ++ "\x27"
  | .arr items => "[" ++ renderJsonList items ++ "]"
  | .obj fields => "\x7b" ++ renderJsonFields fields ++ "\x7d"

/-- Comma-separated renders of a JSON array's items. -/
def renderJsonList : List Json → String
  | [] => ""
  | [j] => renderJson j
  | j :: rest => renderJson j ++ ", " ++ renderJsonList rest

/-- Comma-separated renders of a JSON object's fields. -/
def renderJsonFields : List (String × Json) → String
  | [] => ""
  | [(k, v)] => "\x27" ++ k ++ "\x27: " ++ renderJson v
  | (k, v) :: rest =>
      "\x27" ++ k ++ "\x27: " ++ renderJson v ++ ", " ++ renderJsonFields rest

end

/-- `str(model)` shape shared by the count-plus-results response models. -/
def renderCountResults (countKey resultsKey : String) (n : Int)
    (items : List Json) : String :=
  countKey ++ "=" ++ toString n ++ " " ++ resultsKey ++ "=[" ++
    renderJsonList items ++ "]"

/-- `str(railway_lines_response)`. -/
def renderRailwayLineResponse (r : RailwayLineResponse) : String :=
  renderCountResults "total_count" "results" r.total_count r.results

/-- `str(rolling_stock_response)`. -/
def renderRollingStockResponse (r : RollingStockResponse) : String :=
  renderCountResults "total_count" "results" r.total_count r.results

/-- `str(response)` for the station-users endpoint. -/
def renderStationUsersResponse (r : StationUsersResponse) : String :=
  renderCountResults "total_count" "results" r.total_count r.results

/-- `str(response)` for the target-actual-compared endpoint. -/
def renderTargetActualComparedResponse (r : TargetActualComparedResponse) :
    String :=
  renderCountResults "total_count" "results" r.total_count r.results

/-- `str(response)` for the station-furniture endpoint. -/
def renderStationFurnitureResponse (r : StationFurnitureResponse) : String :=
  renderCountResults "total_count" "results" r.total_count r.results

/-- `str(response)` for the station-services endpoint. -/
def renderStationServiceResponse (r : StationServiceResponse) : String :=
  renderCountResults "total_count" "results" r.total_count r.results

/-- `str(response)` for the station-stores endpoint. -/
def renderStoresResponse (r : StoresResponse) : String :=
  renderCountResults "total_count" "results" r.total_count r.results

/-- `str(response)` for the stock-screendata endpoint. -/
def renderFincanceScreenerResponse (r : FincanceScreenerResponse) : String :=
  renderCountResults "count" "quotes" r.count r.quotes

/-! ## The remaining ch_sbb fetch functions -/

/-- `fetch_railway_lines` (ch_sbb.py). -/
def fetch_railway_lines (params : RailwayLineParams) (http : HttpResult) :
    HttpRequest × Except Exn RailwayLineResponse :=
  httpFetch (BASE_URL ++ "/catalog/datasets/linie/records")
    (basicQueryDump params.select params.where_ params.group_by
      params.order_by params.limit params.offset)
    (parseCountResults "total_count" "results" RailwayLineResponse.mk) http

/-- `fetch_rolling_stock` (ch_sbb.py). -/
def fetch_rolling_stock (params : RollingStockParams) (http : HttpResult) :
    HttpRequest × Except Exn RollingStockResponse :=
  httpFetch (BASE_URL ++ "/catalog/datasets/rollmaterial/records")
    (basicQueryDump params.select params.where_ params.group_by
      params.order_by params.limit params.offset)
    (parseCountResults "total_count" "results" RollingStockResponse.mk) http

/-- `fetch_usage_data` (ch_sbb.py): note the endpoint string itself carries
the fixed `?limit=100` query text, while the validated parameters travel in
`params=`. -/
def fetch_usage_data (params : StationUsersParams) (http : HttpResult) :
    HttpRequest × Except Exn StationUsersResponse :=
  httpFetch
    (BASE_URL ++ "/catalog/datasets/anzahl-sbb-bahnhofbenutzer/records?limit=100")
    (stdQueryDump params.select params.where_ params.group_by params.order_by
      params.limit params.offset params.refine params.exclude params.lang
      params.include_links params.include_app_metas)
    (parseCountResults "total_count" "results" StationUsersResponse.mk) http

/-- `fetch_target_actual_compared` (ch_sbb.py), endpoint fixed at
`?limit=100`. -/
def fetch_target_actual_compared (params : TargetActualComparedParams)
    (http : HttpResult) :
    HttpRequest × Except Exn TargetActualComparedResponse :=
  httpFetch (BASE_URL ++ "/catalog/datasets/ist-daten-sbb/records?limit=100")
    (stdQueryDump params.select params.where_ params.group_by params.order_by
      params.limit params.offset params.refine params.exclude params.lang
      params.include_links params.include_app_metas)
    (parseCountResults "total_count" "results" TargetActualComparedResponse.mk)
    http

/-- `fetch_station_furnitures` (ch_sbb.py), endpoint fixed at `?limit=100`. -/
def fetch_station_furnitures (params : StationFurnitureParams)
    (http : HttpResult) : HttpRequest × Except Exn StationFurnitureResponse :=
  httpFetch
    (BASE_URL ++ "/catalog/datasets/mobiliar-im-bahnhof/records?limit=100")
    (stdQueryDump params.select params.where_ params.group_by params.order_by
      params.limit params.offset params.refine params.exclude params.lang
      params.include_links params.include_app_metas)
    (parseCountResults "total_count" "results" StationFurnitureResponse.mk) http

/-- `fetch_station_services` (ch_sbb.py), endpoint fixed at `?limit=100`. -/
def fetch_station_services (params : StationServiceParams)
    (http : HttpResult) : HttpRequest × Except Exn StationServiceResponse :=
  httpFetch
    (BASE_URL ++ "/catalog/datasets/haltestelle-offnungszeiten/records?limit=100")
    (stdQueryDump params.select params.where_ params.group_by params.order_by
      params.limit params.offset params.refine params.exclude params.lang
      params.include_links params.include_app_metas)
    (parseCountResults "total_count" "results" StationServiceResponse.mk) http

/-- `fetch_stores_data` (ch_sbb.py), endpoint fixed at `?limit=100`. -/
def fetch_stores_data (params : StoresParams) (http : HttpResult) :
    HttpRequest × Except Exn StoresResponse :=
  httpFetch
    (BASE_URL ++ "/catalog/datasets/offnungszeiten-shops/records?limit=100")
    (stdQueryDump params.select params.where_ params.group_by params.order_by
      params.limit params.offset params.refine params.exclude params.lang
      params.include_links params.include_app_metas)
    (parseCountResults "total_count" "results" StoresResponse.mk) http

/-! ## The remaining ch_sbb handlers

`handle_railway_lines` and `handle_rolling_stock` share
`handle_rail_traffic_info`'s shape: `Model(**arguments)` with no `None`
guard, so a `None` arguments dict raises `TypeError` inside the `try` block,
before validation.  The five later handlers instead write
`Model(**(arguments or {}))`, turning `None` into the empty bag. -/

/-- Body of `handle_railway_lines`'s `try` block. -/
def railway_lines_attempt (arguments : Option ArgBag) (http : HttpResult) :
    Except Exn (List ContentBlock) :=
  match expandKwargs arguments with
  | Except.error e => Except.error e
  | Except.ok bag =>
      pipeline (validateRailwayLineParams bag)
        (fun p => (fetch_railway_lines p http).2) renderRailwayLineResponse

/-- `handle_railway_lines` (ch_sbb.py). -/
def handle_railway_lines (arguments : Option ArgBag) (http : HttpResult) :
    HandlerOutput :=
  tryExcept (railway_lines_attempt arguments http)
    "Error fetching railway lines: "

/-- Body of `handle_rolling_stock`'s `try` block. -/
def rolling_stock_attempt (arguments : Option ArgBag) (http : HttpResult) :
    Except Exn (List ContentBlock) :=
  match expandKwargs arguments with
  | Except.error e => Except.error e
  | Except.ok bag =>
      pipeline (validateRollingStockParams bag)
        (fun p => (fetch_rolling_stock p http).2) renderRollingStockResponse

/-- `handle_rolling_stock` (ch_sbb.py). -/
def handle_rolling_stock (arguments : Option ArgBag) (http : HttpResult) :
    HandlerOutput :=
  tryExcept (rolling_stock_attempt arguments http)
    "Error fetching rolling stock info: "

/-- Body of `handle_station_users`'s `try` block:
`StationUsersParams(**(arguments or {}))`, then the fetch, then one text
block. -/
def station_users_attempt (arguments : Option ArgBag) (http : HttpResult) :
    Except Exn (List ContentBlock) :=
  pipeline (validateStationUsersParams (argsOrEmpty arguments))
    (fun p => (fetch_usage_data p http).2) renderStationUsersResponse

/-- `handle_station_users` (ch_sbb.py). -/
def handle_station_users (arguments : Option ArgBag) (http : HttpResult) :
    HandlerOutput :=
  tryExcept (station_users_attempt arguments http) "Error handling endpoint: "

/-- Body of `handle_target_actual_compared`'s `try` block. -/
def target_actual_compared_attempt (arguments : Option ArgBag)
    (http : HttpResult) : Except Exn (List ContentBlock) :=
  pipeline (validateTargetActualComparedParams (argsOrEmpty arguments))
    (fun p => (fetch_target_actual_compared p http).2)
    renderTargetActualComparedResponse

/-- `handle_target_actual_compared` (ch_sbb.py). -/
def handle_target_actual_compared (arguments : Option ArgBag)
    (http : HttpResult) : HandlerOutput :=
  tryExcept (target_actual_compared_attempt arguments http)
    "Error handling endpoint: "

/-- Body of `handle_station_furnitures`'s `try` block. -/
def station_furnitures_attempt (arguments : Option ArgBag)
    (http : HttpResult) : Except Exn (List ContentBlock) :=
  pipeline (validateStationFurnitureParams (argsOrEmpty arguments))
    (fun p => (fetch_station_furnitures p http).2)
    renderStationFurnitureResponse

/-- `handle_station_furnitures` (ch_sbb.py). -/
def handle_station_furnitures (arguments : Option ArgBag)
    (http : HttpResult) : HandlerOutput :=
  tryExcept (station_furnitures_attempt arguments http)
    "Error handling endpoint: "

/-- Body of `handle_station_services`'s `try` block. -/
def station_services_attempt (arguments : Option ArgBag) (http : HttpResult) :
    Except Exn (List ContentBlock) :=
  pipeline (validateStationServiceParams (argsOrEmpty arguments))
    (fun p => (fetch_station_services p http).2) renderStationServiceResponse

/-- `handle_station_services` (ch_sbb.py). -/
def handle_station_services (arguments : Option ArgBag) (http : HttpResult) :
    HandlerOutput :=
  tryExcept (station_services_attempt arguments http)
    "Error handling endpoint: "

/-- Body of `hande_stores_data`'s `try` block (handler name as misspelled in
the source). -/
def stores_data_attempt (arguments : Option ArgBag) (http : HttpResult) :
    Except Exn (List ContentBlock) :=
  pipeline (validateStoresParams (argsOrEmpty arguments))
    (fun p => (fetch_stores_data p http).2) renderStoresResponse

/-- `hande_stores_data` (ch_sbb.py). -/
def hande_stores_data (arguments : Option ArgBag) (http : HttpResult) :
    HandlerOutput :=
  tryExcept (stores_data_attempt arguments http) "Error handling endpoint: "

/-! ## glob_screeners.py — the stock screener endpoint -/

/-- `FincanceScreenerParams` (glob_screeners.py).  `screenerOptions` is a
plain `str` with default `"day_gainers"`; the accepted list in its
description is documentation only, no enumeration constraint is declared. -/
structure FincanceScreenerParams where
  screenerOptions : String
deriving DecidableEq, Repr

/-- `FincanceScreenerParams()` — the freshly constructed default instance. -/
def defaultFincanceScreenerParams : FincanceScreenerParams :=
  { screenerOptions := "day_gainers" }

/-- `FincanceScreenerParams(**bag)`. -/
def validateFincanceScreenerParams (bag : ArgBag) :
    Except (List ValidationError) FincanceScreenerParams :=
  let errs := checkStrField bag "screenerOptions"
  if errs = [] then
    Except.ok { screenerOptions := getStr bag "screenerOptions" "day_gainers" }
  else Except.error errs

/-- `fetch_screener_data` (glob_screeners.py).  The source computes
`filter = FincanceScreenerParams().screenerOptions` from a freshly
constructed default instance — not from the caller's `params` — passes it to
`screener.set_predefined_body(filter)` and reads `screener.response`.  The
`screenerResponse` oracle maps the configured body to the screener's
response payload; the first component of the result is the body actually
configured. -/
def fetch_screener_data (params : FincanceScreenerParams)
    (screenerResponse : String → Json) :
    String × Except Exn FincanceScreenerResponse :=
  let filter := defaultFincanceScreenerParams.screenerOptions
  (filter,
   parseCountResults "count" "quotes" FincanceScreenerResponse.mk
     (screenerResponse filter))

/-- Body of `handle_screenerdata`'s `try` block:
`FincanceScreenerParams(**(arguments or {}))`, the screener fetch, one text
block. -/
def screenerdata_attempt (arguments : Option ArgBag)
    (screenerResponse : String → Json) : Except Exn (List ContentBlock) :=
  pipeline (validateFincanceScreenerParams (argsOrEmpty arguments))
    (fun p => (fetch_screener_data p screenerResponse).2)
    renderFincanceScreenerResponse

/-- `handle_screenerdata` (glob_screeners.py). -/
def handle_screenerdata (arguments : Option ArgBag)
    (screenerResponse : String → Json) : HandlerOutput :=
  tryExcept (screenerdata_attempt arguments screenerResponse)
    "Error handling endpoint: "

/-! ## Tool registration -/

/-- The registered descriptor of one tool: its wire name and description
(the declared `inputSchema` is derived from the corresponding parameter
model and is not repeated in the registry model). -/
structure ToolDecl where
  name : String
  description : String
deriving DecidableEq, Repr

/-- A reference to one of the nine handler functions, for the
`TOOLS_HANDLERS` tables. -/
inductive HandlerTag
  | railTrafficInfo
  | railwayLines
  | rollingStock
  | stationUsers
  | targetActualCompared
  | stationFurnitures
  | stationServices
  | storesData
  | screenerdata
deriving DecidableEq, Repr

/-- Python dict assignment `d[k] = v`: replaces an existing binding for `k`,
otherwise appends the new binding. -/
def dictInsert (d : List (String × HandlerTag)) (k : String) (v : HandlerTag) :
    List (String × HandlerTag) :=
  match d with
  | [] => [(k, v)]
  | (k0, v0) :: rest =>
      if k0 = k then (k, v) :: rest else (k0, v0) :: dictInsert rest k v

/-- `TOOLS` of ch_sbb.py after its module-level registration sequence: the
eight `TOOLS.append(types.Tool(...))` calls, in source order. -/
def ch_sbb_TOOLS : List ToolDecl :=
  [⟨"rail-traffic-info", "Fetch rail traffic information"⟩,
   ⟨"railway-lines", "Fetch railway line information"⟩,
   ⟨"rolling-stock", "Fetch rolling stock (vehicle) information"⟩,
   ⟨"station-users", "Description of what this endpoint does"⟩,
   ⟨"target-actual-compared", "Description of what this endpoint does"⟩,
   ⟨"station-furniture", "Description of what this endpoint does"⟩,
   ⟨"station-services", "Description of what this endpoint does"⟩,
   ⟨"station-stores", "Description of what this endpoint does"⟩]

/-- `TOOLS_HANDLERS` of ch_sbb.py after its eight
`TOOLS_HANDLERS[name] = handler` assignments, in source order. -/
def ch_sbb_TOOLS_HANDLERS : List (String × HandlerTag) :=
  dictInsert (dictInsert (dictInsert (dictInsert (dictInsert (dictInsert
    (dictInsert (dictInsert [] "rail-traffic-info" .railTrafficInfo)
      "railway-lines" .railwayLines)
      "rolling-stock" .rollingStock)
      "station-users" .stationUsers)
      "target-actual-compared" .targetActualCompared)
      "station-furniture" .stationFurnitures)
      "station-services" .stationServices)
      "station-stores" .storesData

/-- `TOOLS` of glob_screeners.py after its registration sequence. -/
def glob_screeners_TOOLS : List ToolDecl :=
  [⟨"stock-screendata", "Description of what this endpoint does"⟩]

/-- `TOOLS_HANDLERS` of glob_screeners.py after its registration sequence. -/
def glob_screeners_TOOLS_HANDLERS : List (String × HandlerTag) :=
  dictInsert [] "stock-screendata" .screenerdata

/-! ## General lemmas about the embedded combinators -/

/-- A handler's propagated outcome is exactly its `try` body's outcome: the
`except` clause re-raises the caught exception unchanged. -/
theorem tryExcept_result (a : Except Exn (List ContentBlock)) (c : String) :
    (tryExcept a c).result = a := by
  cases a <;> rfl

/-- When the `try` body fails, the handler logs exactly one line. -/
theorem tryExcept_logged (a : Except Exn (List ContentBlock)) (c : String)
    (e : Exn) (h : (tryExcept a c).result = Except.error e) :
    (tryExcept a c).logLines = [c ++ describeExn e] := by
  rw [tryExcept_result] at h
  subst h
  rfl

/-- A successful pipeline run yields exactly one text content block holding
the render of the fetched response. -/
theorem pipeline_ok (v : Except (List ValidationError) V)
    (f : V → Except Exn R) (r : R → String) {blocks : List ContentBlock}
    (h : pipeline v f r = Except.ok blocks) :
    ∃ resp, blocks = [ContentBlock.text (r resp)] := by
  cases v with
  | error errs => simp [pipeline] at h
  | ok p =>
    cases hf : f p with
    | error e => simp [pipeline, hf] at h
    | ok resp =>
      refine ⟨resp, ?_⟩
      simp only [pipeline, hf] at h
      exact (Except.ok.injEq _ _ ▸ h).symm

/-- A failed validation short-circuits the pipeline to the corresponding
pydantic `ValidationError`, whatever the fetch function is. -/
theorem pipeline_val_error (v : Except (List ValidationError) V)
    (f : V → Except Exn R) (r : R → String) (errs : List ValidationError)
    (h : v = Except.error errs) :
    pipeline v f r = Except.error (.validationError errs) := by
  subst h
  rfl

/-- Any exception a pipeline raises is a validation error or comes from the
fetch; when the fetch only raises unclassified exceptions, so does the
pipeline. -/
theorem pipeline_error_unclassified (v : Except (List ValidationError) V)
    (f : V → Except Exn R) (r : R → String) (e : Exn)
    (hf : ∀ p e2, f p = Except.error e2 → e2.isClassified = false)
    (h : pipeline v f r = Except.error e) : e.isClassified = false := by
  cases v with
  | error errs =>
    simp only [pipeline] at h
    cases h
    rfl
  | ok p =>
    cases hfp : f p with
    | error e2 =>
      simp only [pipeline, hfp] at h
      cases h
      exact hf p _ hfp
    | ok resp => simp [pipeline, hfp] at h

/-- Any exception `parseTrafficInfoResponse` raises is a pydantic validation
error or a `TypeError` — never a classified error kind. -/
theorem parseTrafficInfoResponse_error_unclassified (j : Json) (e : Exn)
    (h : parseTrafficInfoResponse j = Except.error e) :
    e.isClassified = false := by
  cases j with
  | obj fields =>
    simp only [parseTrafficInfoResponse] at h
    split at h
    · cases h
    · cases h
      rfl
  | null => cases h; rfl
  | bool b => cases h; rfl
  | int n => cases h; rfl
  | str s => cases h; rfl
  | arr items => cases h; rfl

/-- Any exception `parseCountResults` raises is a pydantic validation error
or a `TypeError` — never a classified error kind. -/
theorem parseCountResults_error_unclassified (ck rk : String)
    (mk : Int → List Json → α) (j : Json) (e : Exn)
    (h : parseCountResults ck rk mk j = Except.error e) :
    e.isClassified = false := by
  cases j with
  | obj fields =>
    simp only [parseCountResults] at h
    split at h
    · cases h
    · cases h
      rfl
  | null => cases h; rfl
  | bool b => cases h; rfl
  | int n => cases h; rfl
  | str s => cases h; rfl
  | arr items => cases h; rfl

/-- Any exception an embedded fetch raises is a connection error, an HTTP
status error, or a parse failure; when the parse only raises unclassified
exceptions, so does the fetch. -/
theorem httpFetch_error_unclassified (u : String) (q : List (String × Value))
    (parse : Json → Except Exn α) (http : HttpResult) (e : Exn)
    (hp : ∀ j e2, parse j = Except.error e2 → e2.isClassified = false)
    (h : (httpFetch u q parse http).2 = Except.error e) :
    e.isClassified = false := by
  cases http with
  | netError =>
    cases h
    rfl
  | response status body =>
    simp only [httpFetch] at h
    split at h
    · cases h
      rfl
    · exact hp body e h

/-! ## Per-fetch and per-handler error-classification lemmas -/

/-- `fetch_rail_traffic_info` only raises unclassified exceptions. -/
theorem fetch_rail_traffic_info_error_unclassified (p : TrafficInfoParams)
    (http : HttpResult) (e : Exn)
    (h : (fetch_rail_traffic_info p http).2 = Except.error e) :
    e.isClassified = false :=
  httpFetch_error_unclassified _ _ _ _ _
    (fun j e2 h2 => parseTrafficInfoResponse_error_unclassified j e2 h2) h

/-- `fetch_railway_lines` only raises unclassified exceptions. -/
theorem fetch_railway_lines_error_unclassified (p : RailwayLineParams)
    (http : HttpResult) (e : Exn)
    (h : (fetch_railway_lines p http).2 = Except.error e) :
    e.isClassified = false :=
  httpFetch_error_unclassified _ _ _ _ _
    (fun j e2 h2 => parseCountResults_error_unclassified _ _ _ j e2 h2) h

/-- `fetch_rolling_stock` only raises unclassified exceptions. -/
theorem fetch_rolling_stock_error_unclassified (p : RollingStockParams)
    (http : HttpResult) (e : Exn)
    (h : (fetch_rolling_stock p http).2 = Except.error e) :
    e.isClassified = false :=
  httpFetch_error_unclassified _ _ _ _ _
    (fun j e2 h2 => parseCountResults_error_unclassified _ _ _ j e2 h2) h

/-- `fetch_usage_data` only raises unclassified exceptions. -/
theorem fetch_usage_data_error_unclassified (p : StationUsersParams)
    (http : HttpResult) (e : Exn)
    (h : (fetch_usage_data p http).2 = Except.error e) :
    e.isClassified = false :=
  httpFetch_error_unclassified _ _ _ _ _
    (fun j e2 h2 => parseCountResults_error_unclassified _ _ _ j e2 h2) h

/-- `fetch_target_actual_compared` only raises unclassified exceptions. -/
theorem fetch_target_actual_compared_error_unclassified
    (p : TargetActualComparedParams) (http : HttpResult) (e : Exn)
    (h : (fetch_target_actual_compared p http).2 = Except.error e) :
    e.isClassified = false :=
  httpFetch_error_unclassified _ _ _ _ _
    (fun j e2 h2 => parseCountResults_error_unclassified _ _ _ j e2 h2) h

/-- `fetch_station_furnitures` only raises unclassified exceptions. -/
theorem fetch_station_furnitures_error_unclassified
    (p : StationFurnitureParams) (http : HttpResult) (e : Exn)
    (h : (fetch_station_furnitures p http).2 = Except.error e) :
    e.isClassified = false :=
  httpFetch_error_unclassified _ _ _ _ _
    (fun j e2 h2 => parseCountResults_error_unclassified _ _ _ j e2 h2) h

/-- `fetch_station_services` only raises unclassified exceptions. -/
theorem fetch_station_services_error_unclassified (p : StationServiceParams)
    (http : HttpResult) (e : Exn)
    (h : (fetch_station_services p http).2 = Except.error e) :
    e.isClassified = false :=
  httpFetch_error_unclassified _ _ _ _ _
    (fun j e2 h2 => parseCountResults_error_unclassified _ _ _ j e2 h2) h

/-- `fetch_stores_data` only raises unclassified exceptions. -/
theorem fetch_stores_data_error_unclassified (p : StoresParams)
    (http : HttpResult) (e : Exn)
    (h : (fetch_stores_data p http).2 = Except.error e) :
    e.isClassified = false :=
  httpFetch_error_unclassified _ _ _ _ _
    (fun j e2 h2 => parseCountResults_error_unclassified _ _ _ j e2 h2) h

/-- `fetch_screener_data` only raises unclassified exceptions. -/
theorem fetch_screener_data_error_unclassified (p : FincanceScreenerParams)
    (oracle : String → Json) (e : Exn)
    (h : (fetch_screener_data p oracle).2 = Except.error e) :
    e.isClassified = false :=
  parseCountResults_error_unclassified _ _ _ _ e h

/-- `handle_rail_traffic_info` never propagates a classified exception. -/
theorem handle_rail_traffic_info_error_unclassified (args : Option ArgBag)
    (http : HttpResult) (e : Exn)
    (h : (handle_rail_traffic_info args http).result = Except.error e) :
    e.isClassified = false := by
  rw [handle_rail_traffic_info, handle_rail_traffic_info_gen,
    tryExcept_result] at h
  cases args with
  | none =>
    simp only [rail_traffic_attempt_gen, expandKwargs] at h
    cases h
    rfl
  | some bag =>
    simp only [rail_traffic_attempt_gen, expandKwargs] at h
    exact pipeline_error_unclassified _ _ _ _
      (fun p e2 h2 => fetch_rail_traffic_info_error_unclassified p http e2 h2) h

/-- `handle_railway_lines` never propagates a classified exception. -/
theorem handle_railway_lines_error_unclassified (args : Option ArgBag)
    (http : HttpResult) (e : Exn)
    (h : (handle_railway_lines args http).result = Except.error e) :
    e.isClassified = false := by
  rw [handle_railway_lines, tryExcept_result] at h
  cases args with
  | none =>
    simp only [railway_lines_attempt, expandKwargs] at h
    cases h
    rfl
  | some bag =>
    simp only [railway_lines_attempt, expandKwargs] at h
    exact pipeline_error_unclassified _ _ _ _
      (fun p e2 h2 => fetch_railway_lines_error_unclassified p http e2 h2) h

/-- `handle_rolling_stock` never propagates a classified exception. -/
theorem handle_rolling_stock_error_unclassified (args : Option ArgBag)
    (http : HttpResult) (e : Exn)
    (h : (handle_rolling_stock args http).result = Except.error e) :
    e.isClassified = false := by
  rw [handle_rolling_stock, tryExcept_result] at h
  cases args with
  | none =>
    simp only [rolling_stock_attempt, expandKwargs] at h
    cases h
    rfl
  | some bag =>
    simp only [rolling_stock_attempt, expandKwargs] at h
    exact pipeline_error_unclassified _ _ _ _
      (fun p e2 h2 => fetch_rolling_stock_error_unclassified p http e2 h2) h

/-- `handle_station_users` never propagates a classified exception. -/
theorem handle_station_users_error_unclassified (args : Option ArgBag)
    (http : HttpResult) (e : Exn)
    (h : (handle_station_users args http).result = Except.error e) :
    e.isClassified = false := by
  rw [handle_station_users, tryExcept_result] at h
  simp only [station_users_attempt] at h
  exact pipeline_error_unclassified _ _ _ _
    (fun p e2 h2 => fetch_usage_data_error_unclassified p http e2 h2) h

/-- `handle_target_actual_compared` never propagates a classified
exception. -/
theorem handle_target_actual_compared_error_unclassified
    (args : Option ArgBag) (http : HttpResult) (e : Exn)
    (h : (handle_target_actual_compared args http).result = Except.error e) :
    e.isClassified = false := by
  rw [handle_target_actual_compared, tryExcept_result] at h
  simp only [target_actual_compared_attempt] at h
  exact pipeline_error_unclassified _ _ _ _
    (fun p e2 h2 =>
      fetch_target_actual_compared_error_unclassified p http e2 h2) h

/-- `handle_station_furnitures` never propagates a classified exception. -/
theorem handle_station_furnitures_error_unclassified (args : Option ArgBag)
    (http : HttpResult) (e : Exn)
    (h : (handle_station_furnitures args http).result = Except.error e) :
    e.isClassified = false := by
  rw [handle_station_furnitures, tryExcept_result] at h
  simp only [station_furnitures_attempt] at h
  exact pipeline_error_unclassified _ _ _ _
    (fun p e2 h2 => fetch_station_furnitures_error_unclassified p http e2 h2) h

/-- `handle_station_services` never propagates a classified exception. -/
theorem handle_station_services_error_unclassified (args : Option ArgBag)
    (http : HttpResult) (e : Exn)
    (h : (handle_station_services args http).result = Except.error e) :
    e.isClassified = false := by
  rw [handle_station_services, tryExcept_result] at h
  simp only [station_services_attempt] at h
  exact pipeline_error_unclassified _ _ _ _
    (fun p e2 h2 => fetch_station_services_error_unclassified p http e2 h2) h

/-- `hande_stores_data` never propagates a classified exception. -/
theorem hande_stores_data_error_unclassified (args : Option ArgBag)
    (http : HttpResult) (e : Exn)
    (h : (hande_stores_data args http).result = Except.error e) :
    e.isClassified = false := by
  rw [hande_stores_data, tryExcept_result] at h
  simp only [stores_data_attempt] at h
  exact pipeline_error_unclassified _ _ _ _
    (fun p e2 h2 => fetch_stores_data_error_unclassified p http e2 h2) h

/-- `handle_screenerdata` never propagates a classified exception. -/
theorem handle_screenerdata_error_unclassified (args : Option ArgBag)
    (oracle : String → Json) (e : Exn)
    (h : (handle_screenerdata args oracle).result = Except.error e) :
    e.isClassified = false := by
  rw [handle_screenerdata, tryExcept_result] at h
  simp only [screenerdata_attempt] at h
  exact pipeline_error_unclassified _ _ _ _
    (fun p e2 h2 => fetch_screener_data_error_unclassified p oracle e2 h2) h

/-! ## Claim theorems -/

/-- C1, counterexample: the claim says every failure inside a handler is
reclassified into `UpstreamUnavailable`, `UpstreamMalformedResponse` or
`InternalFault` and returned as a classified failure, never propagated as an
unclassified raw exception.  At the concrete input
`arguments = {}`, upstream HTTP status 500, `handle_rail_traffic_info`
propagates the raw `HTTPStatusError 500`, which is not one of the three
classified kinds. -/
theorem claim1_counterexample :
    (handle_rail_traffic_info (Option.some ([] : ArgBag))
        (HttpResult.response 500 Json.null)).result
      = Except.error (Exn.httpStatusError 500)
    ∧ Exn.isClassified (Exn.httpStatusError 500) = false := by
  exact ⟨rfl, rfl⟩

/-- C1, amended: for every tool handler and every failure raised during its
execution (including failures of the external fetch), the failure is caught
at the handler boundary and logged there, but it is then re-raised
unchanged: the caller receives the original, unclassified exception, never
one of `UpstreamUnavailable`, `UpstreamMalformedResponse` or
`InternalFault`, which no handler ever constructs. -/
theorem claim1_amended :
    (∀ args http e,
      (handle_rail_traffic_info args http).result = Except.error e →
      e.isClassified = false ∧
        (handle_rail_traffic_info args http).logLines ≠ []) ∧
    (∀ args http e,
      (handle_railway_lines args http).result = Except.error e →
      e.isClassified = false ∧
        (handle_railway_lines args http).logLines ≠ []) ∧
    (∀ args http e,
      (handle_rolling_stock args http).result = Except.error e →
      e.isClassified = false ∧
        (handle_rolling_stock args http).logLines ≠ []) ∧
    (∀ args http e,
      (handle_station_users args http).result = Except.error e →
      e.isClassified = false ∧
        (handle_station_users args http).logLines ≠ []) ∧
    (∀ args http e,
      (handle_target_actual_compared args http).result = Except.error e →
      e.isClassified = false ∧
        (handle_target_actual_compared args http).logLines ≠ []) ∧
    (∀ args http e,
      (handle_station_furnitures args http).result = Except.error e →
      e.isClassified = false ∧
        (handle_station_furnitures args http).logLines ≠ []) ∧
    (∀ args http e,
      (handle_station_services args http).result = Except.error e →
      e.isClassified = false ∧
        (handle_station_services args http).logLines ≠ []) ∧
    (∀ args http e,
      (hande_stores_data args http).result = Except.error e →
      e.isClassified = false ∧
        (hande_stores_data args http).logLines ≠ []) ∧
    (∀ args oracle e,
      (handle_screenerdata args oracle).result = Except.error e →
      e.isClassified = false ∧
        (handle_screenerdata args oracle).logLines ≠ []) := by
  refine ⟨?_, ?_, ?_, ?_, ?_, ?_, ?_, ?_, ?_⟩
  · intro args http e h
    refine ⟨handle_rail_traffic_info_error_unclassified args http e h, ?_⟩
    rw [handle_rail_traffic_info, handle_rail_traffic_info_gen] at h ⊢
    rw [tryExcept_logged _ _ _ h]
    simp
  · intro args http e h
    refine ⟨handle_railway_lines_error_unclassified args http e h, ?_⟩
    rw [handle_railway_lines] at h ⊢
    rw [tryExcept_logged _ _ _ h]
    simp
  · intro args http e h
    refine ⟨handle_rolling_stock_error_unclassified args http e h, ?_⟩
    rw [handle_rolling_stock] at h ⊢
    rw [tryExcept_logged _ _ _ h]
    simp
  · intro args http e h
    refine ⟨handle_station_users_error_unclassified args http e h, ?_⟩
    rw [handle_station_users] at h ⊢
    rw [tryExcept_logged _ _ _ h]
    simp
  · intro args http e h
    refine ⟨handle_target_actual_compared_error_unclassified args http e h, ?_⟩
    rw [handle_target_actual_compared] at h ⊢
    rw [tryExcept_logged _ _ _ h]
    simp
  · intro args http e h
    refine ⟨handle_station_furnitures_error_unclassified args http e h, ?_⟩
    rw [handle_station_furnitures] at h ⊢
    rw [tryExcept_logged _ _ _ h]
    simp
  · intro args http e h
    refine ⟨handle_station_services_error_unclassified args http e h, ?_⟩
    rw [handle_station_services] at h ⊢
    rw [tryExcept_logged _ _ _ h]
    simp
  · intro args http e h
    refine ⟨hande_stores_data_error_unclassified args http e h, ?_⟩
    rw [hande_stores_data] at h ⊢
    rw [tryExcept_logged _ _ _ h]
    simp
  · intro args oracle e h
    refine ⟨handle_screenerdata_error_unclassified args oracle e h, ?_⟩
    rw [handle_screenerdata] at h ⊢
    rw [tryExcept_logged _ _ _ h]
    simp

/-- C1, witness: the amended statement applied at the concrete failing
invocation of `handle_rail_traffic_info` (empty argument bag, upstream HTTP
status 500). -/
theorem claim1_witness :
    Exn.isClassified (Exn.httpStatusError 500) = false ∧
      (handle_rail_traffic_info (Option.some ([] : ArgBag))
          (HttpResult.response 500 Json.null)).logLines ≠ [] :=
  claim1_amended.1 (Option.some ([] : ArgBag))
    (HttpResult.response 500 Json.null) (Exn.httpStatusError 500) rfl

/-- C2: for every argument bag whose `limit` field is an integer outside the
inclusive range [1, 100], `TrafficInfoParams` validation fails with a
`ValidationError` naming `limit`, and the handler's outcome is the same for
every fetch function — the upstream fetch is never consulted. -/
theorem claim2_limit_out_of_range :
    ∀ (bag : ArgBag) (n : Int),
      lookupArg bag "limit" = Option.some (Value.int n) →
      (n < 1 ∨ 100 < n) →
      (∃ errs, validateTrafficInfoParams bag = Except.error errs ∧
        ∃ e, e ∈ errs ∧ e.field = "limit") ∧
      (∀ f g, handle_rail_traffic_info_gen f (Option.some bag) =
        handle_rail_traffic_info_gen g (Option.some bag)) := by
  intro bag n hlook hb
  have hmem : ∃ e, e ∈ checkIntField bag "limit" (Option.some 1)
      (Option.some 100) ∧ e.field = "limit" := by
    rw [checkIntField, hlook]
    rcases hb with hlt | hgt
    · refine ⟨⟨"limit", .out_of_bound .ge 1⟩, ?_, rfl⟩
      simp [hlt]
    · refine ⟨⟨"limit", .out_of_bound .le 100⟩, ?_, rfl⟩
      have hnlt : ¬ n < 1 := by omega
      simp [hnlt, hgt]
  have hmemAll : ∃ e, e ∈ trafficInfoErrors bag ∧ e.field = "limit" := by
    obtain ⟨e, he, hf⟩ := hmem
    refine ⟨e, ?_, hf⟩
    simp only [trafficInfoErrors, List.mem_append]
    tauto
  have hne : trafficInfoErrors bag ≠ [] := by
    obtain ⟨e, he, _⟩ := hmemAll
    intro hnil
    rw [hnil] at he
    cases he
  have hval : validateTrafficInfoParams bag
      = Except.error (trafficInfoErrors bag) := by
    simp only [validateTrafficInfoParams]
    rw [if_neg hne]
  refine ⟨⟨trafficInfoErrors bag, hval, hmemAll⟩, ?_⟩
  intro f g
  simp only [handle_rail_traffic_info_gen, rail_traffic_attempt_gen,
    expandKwargs]
  rw [pipeline_val_error _ f _ _ hval, pipeline_val_error _ g _ _ hval]

/-- C2, witness: the theorem applied at the concrete bag
`{limit: 500}`. -/
theorem claim2_witness :
    (∃ errs, validateTrafficInfoParams [("limit", Value.int 500)]
        = Except.error errs ∧ ∃ e, e ∈ errs ∧ e.field = "limit") ∧
    (∀ f g, handle_rail_traffic_info_gen f
        (Option.some ([("limit", Value.int 500)] : ArgBag)) =
      handle_rail_traffic_info_gen g
        (Option.some ([("limit", Value.int 500)] : ArgBag))) :=
  claim2_limit_out_of_range [("limit", Value.int 500)] 500 (by decide)
    (Or.inr (by decide))

/-- C3: for every tool handler, a successful invocation returns exactly one
content block, of the text variant, whose text is the string form of the
structured response the fetch produced — never zero blocks, never more than
one, and never an image or embedded-resource block. -/
theorem claim3_success_single_text_block :
    (∀ args http blocks,
      (handle_rail_traffic_info args http).result = Except.ok blocks →
      ∃ resp, blocks = [ContentBlock.text (renderTrafficInfoResponse resp)]) ∧
    (∀ args http blocks,
      (handle_railway_lines args http).result = Except.ok blocks →
      ∃ resp, blocks = [ContentBlock.text (renderRailwayLineResponse resp)]) ∧
    (∀ args http blocks,
      (handle_rolling_stock args http).result = Except.ok blocks →
      ∃ resp, blocks = [ContentBlock.text (renderRollingStockResponse resp)]) ∧
    (∀ args http blocks,
      (handle_station_users args http).result = Except.ok blocks →
      ∃ resp, blocks = [ContentBlock.text (renderStationUsersResponse resp)]) ∧
    (∀ args http blocks,
      (handle_target_actual_compared args http).result = Except.ok blocks →
      ∃ resp, blocks =
        [ContentBlock.text (renderTargetActualComparedResponse resp)]) ∧
    (∀ args http blocks,
      (handle_station_furnitures args http).result = Except.ok blocks →
      ∃ resp, blocks =
        [ContentBlock.text (renderStationFurnitureResponse resp)]) ∧
    (∀ args http blocks,
      (handle_station_services args http).result = Except.ok blocks →
      ∃ resp, blocks =
        [ContentBlock.text (renderStationServiceResponse resp)]) ∧
    (∀ args http blocks,
      (hande_stores_data args http).result = Except.ok blocks →
      ∃ resp, blocks = [ContentBlock.text (renderStoresResponse resp)]) ∧
    (∀ args oracle blocks,
      (handle_screenerdata args oracle).result = Except.ok blocks →
      ∃ resp, blocks =
        [ContentBlock.text (renderFincanceScreenerResponse resp)]) := by
  refine ⟨?_, ?_, ?_, ?_, ?_, ?_, ?_, ?_, ?_⟩
  · intro args http blocks h
    rw [handle_rail_traffic_info, handle_rail_traffic_info_gen,
      tryExcept_result] at h
    cases args with
    | none =>
      simp only [rail_traffic_attempt_gen, expandKwargs] at h
      cases h
    | some bag =>
      simp only [rail_traffic_attempt_gen, expandKwargs] at h
      exact pipeline_ok _ _ _ h
  · intro args http blocks h
    rw [handle_railway_lines, tryExcept_result] at h
    cases args with
    | none =>
      simp only [railway_lines_attempt, expandKwargs] at h
      cases h
    | some bag =>
      simp only [railway_lines_attempt, expandKwargs] at h
      exact pipeline_ok _ _ _ h
  · intro args http blocks h
    rw [handle_rolling_stock, tryExcept_result] at h
    cases args with
    | none =>
      simp only [rolling_stock_attempt, expandKwargs] at h
      cases h
    | some bag =>
      simp only [rolling_stock_attempt, expandKwargs] at h
      exact pipeline_ok _ _ _ h
  · intro args http blocks h
    rw [handle_station_users, tryExcept_result] at h
    simp only [station_users_attempt] at h
    exact pipeline_ok _ _ _ h
  · intro args http blocks h
    rw [handle_target_actual_compared, tryExcept_result] at h
    simp only [target_actual_compared_attempt] at h
    exact pipeline_ok _ _ _ h
  · intro args http blocks h
    rw [handle_station_furnitures, tryExcept_result] at h
    simp only [station_furnitures_attempt] at h
    exact pipeline_ok _ _ _ h
  · intro args http blocks h
    rw [handle_station_services, tryExcept_result] at h
    simp only [station_services_attempt] at h
    exact pipeline_ok _ _ _ h
  · intro args http blocks h
    rw [hande_stores_data, tryExcept_result] at h
    simp only [stores_data_attempt] at h
    exact pipeline_ok _ _ _ h
  · intro args oracle blocks h
    rw [handle_screenerdata, tryExcept_result] at h
    simp only [screenerdata_attempt] at h
    exact pipeline_ok _ _ _ h

/-- C3, witness: the rail-traffic-info conjunct applied at a concrete
successful invocation (empty bag, upstream status 200 with payload
`{total_count: 0, results: []}`), whose single text block is the string
form of the parsed response. -/
theorem claim3_witness :
    ∃ resp, ([ContentBlock.text "total_count=0 results=[]"] :
        List ContentBlock)
      = [ContentBlock.text (renderTrafficInfoResponse resp)] :=
  claim3_success_single_text_block.1 (Option.some ([] : ArgBag))
    (HttpResult.response 200
      (Json.obj [("total_count", Json.int 0), ("results", Json.arr [])]))
    [ContentBlock.text "total_count=0 results=[]"] (by decide)

/-- C4: for every argument bag that omits all of the declared
`TrafficInfoParams` fields (whatever else it contains), validation succeeds
and the declared defaults are applied: `limit = 10`, `offset = 0`,
`timezone = "UTC"`, `include_links = include_app_metas = False`, and every
optional string field is `None`. -/
theorem claim4_defaults_applied :
    ∀ bag : ArgBag,
      (∀ name ∈ trafficInfoFieldNames, lookupArg bag name = Option.none) →
      validateTrafficInfoParams bag = Except.ok
        { select := Option.none, where_ := Option.none,
          group_by := Option.none, order_by := Option.none,
          limit := 10, offset := 0,
          refine := Option.none, exclude := Option.none, lang := Option.none,
          timezone := "UTC", include_links := false,
          include_app_metas := false } := by
  intro bag h
  have h1 := h "select" (by simp [trafficInfoFieldNames])
  have h2 := h "where" (by simp [trafficInfoFieldNames])
  have h3 := h "group_by" (by simp [trafficInfoFieldNames])
  have h4 := h "order_by" (by simp [trafficInfoFieldNames])
  have h5 := h "limit" (by simp [trafficInfoFieldNames])
  have h6 := h "offset" (by simp [trafficInfoFieldNames])
  have h7 := h "refine" (by simp [trafficInfoFieldNames])
  have h8 := h "exclude" (by simp [trafficInfoFieldNames])
  have h9 := h "lang" (by simp [trafficInfoFieldNames])
  have h10 := h "timezone" (by simp [trafficInfoFieldNames])
  have h11 := h "include_links" (by simp [trafficInfoFieldNames])
  have h12 := h "include_app_metas" (by simp [trafficInfoFieldNames])
  simp [validateTrafficInfoParams, trafficInfoErrors, buildTrafficInfoParams,
    checkOptStrField, checkIntField, checkStrField, checkBoolField,
    getOptStr, getStr, getInt, getBool,
    h1, h2, h3, h4, h5, h6, h7, h8, h9, h10, h11, h12]

/-- C4, witness: the theorem applied at the empty argument bag. -/
theorem claim4_witness :
    validateTrafficInfoParams [] = Except.ok
      { select := Option.none, where_ := Option.none,
        group_by := Option.none, order_by := Option.none,
        limit := 10, offset := 0,
        refine := Option.none, exclude := Option.none, lang := Option.none,
        timezone := "UTC", include_links := false,
        include_app_metas := false } :=
  claim4_defaults_applied [] (fun _ _ => rfl)

/-- C5: adding a field whose name is not declared in the
`TrafficInfoParams` schema to any argument bag leaves validation completely
unchanged — the unknown field is ignored, never rejected, and does not
affect the validated arguments. -/
theorem claim5_unknown_fields_ignored :
    ∀ (bag : ArgBag) (k : String) (v : Value),
      k ∉ trafficInfoFieldNames →
      validateTrafficInfoParams ((k, v) :: bag) =
        validateTrafficInfoParams bag := by
  intro bag k v hk
  simp only [trafficInfoFieldNames, List.mem_cons, List.mem_singleton,
    not_or] at hk
  obtain ⟨n1, n2, n3, n4, n5, n6, n7, n8, n9, n10, n11, n12⟩ := hk
  simp [validateTrafficInfoParams, trafficInfoErrors, buildTrafficInfoParams,
    checkOptStrField, checkIntField, checkStrField, checkBoolField,
    getOptStr, getStr, getInt, getBool, lookupArg,
    n1, n2, n3, n4, n5, n6, n7, n8, n9, n10, n11, n12]

/-- C5, witness: the theorem applied to the unknown field
`"not_a_field": 3` prepended to the bag `{limit: 5}`. -/
theorem claim5_witness :
    validateTrafficInfoParams
        (("not_a_field", Value.int 3) :: [("limit", Value.int 5)]) =
      validateTrafficInfoParams [("limit", Value.int 5)] :=
  claim5_unknown_fields_ignored [("limit", Value.int 5)] "not_a_field"
    (Value.int 3) (by decide)

/-- C6: after the module-level registration sequences complete, in each
provider module the tool names in `TOOLS` are pairwise distinct and, in
order, coincide with the keys of `TOOLS_HANDLERS` — so discovery returns a
unique-name set matching the registered handler set exactly. -/
theorem claim6_registry_names :
    (ch_sbb_TOOLS.map ToolDecl.name).Nodup ∧
    ch_sbb_TOOLS.map ToolDecl.name = ch_sbb_TOOLS_HANDLERS.map Prod.fst ∧
    (glob_screeners_TOOLS.map ToolDecl.name).Nodup ∧
    glob_screeners_TOOLS.map ToolDecl.name =
      glob_screeners_TOOLS_HANDLERS.map Prod.fst := by
  decide

/-- C7, counterexample: the claim says a success-status upstream response
whose payload does not fit the declared result shape makes the fetch raise
the classified `UpstreamMalformedResponse`.  At the concrete payload `{}`
(missing `total_count` and `results`) with status 200,
`fetch_rail_traffic_info` instead raises a plain pydantic
`ValidationError` — an unclassified parse error, not
`UpstreamMalformedResponse`. -/
theorem claim7_counterexample :
    (fetch_rail_traffic_info (buildTrafficInfoParams [])
        (HttpResult.response 200 (Json.obj []))).2
      = Except.error (Exn.validationError
          [⟨"total_count", ValErrKind.missing⟩,
           ⟨"results", ValErrKind.missing⟩]) ∧
    (fetch_rail_traffic_info (buildTrafficInfoParams [])
        (HttpResult.response 200 (Json.obj []))).2
      ≠ Except.error Exn.upstreamMalformedResponse := by
  exact ⟨rfl, by decide⟩

/-- C7, amended: for every success-status upstream response whose JSON
object payload is missing `total_count` or `results`,
`fetch_rail_traffic_info` raises an unclassified pydantic
`ValidationError` recording the missing field — the classified
`UpstreamMalformedResponse` of the specification is never constructed. -/
theorem claim7_amended :
    ∀ (p : TrafficInfoParams) (status : Nat)
      (fields : List (String × Json)),
      status < 400 →
      (jlookup fields "total_count" = Option.none ∨
        jlookup fields "results" = Option.none) →
      ∃ errs,
        (fetch_rail_traffic_info p
            (HttpResult.response status (Json.obj fields))).2
          = Except.error (Exn.validationError errs) ∧
        ((⟨"total_count", ValErrKind.missing⟩ : ValidationError) ∈ errs ∨
          (⟨"results", ValErrKind.missing⟩ : ValidationError) ∈ errs) := by
  intro p status fields hstatus hmissing
  have hnot : ¬ 400 ≤ status := by omega
  have hmem : ((⟨"total_count", ValErrKind.missing⟩ : ValidationError) ∈
      trafficInfoResponseErrors fields) ∨
      ((⟨"results", ValErrKind.missing⟩ : ValidationError) ∈
        trafficInfoResponseErrors fields) := by
    rcases hmissing with hm | hm
    · left
      simp [trafficInfoResponseErrors, hm]
    · right
      simp [trafficInfoResponseErrors, hm]
  have hne : trafficInfoResponseErrors fields ≠ [] := by
    rcases hmem with hm | hm <;>
      (intro hnil; rw [hnil] at hm; cases hm)
  refine ⟨trafficInfoResponseErrors fields, ?_, hmem⟩
  simp only [fetch_rail_traffic_info, httpFetch]
  rw [if_neg hnot]
  simp only [parseTrafficInfoResponse]
  rw [if_neg hne]

/-- C7, witness: the amended statement applied at status 200 and the empty
JSON object payload. -/
theorem claim7_witness :
    ∃ errs,
      (fetch_rail_traffic_info (buildTrafficInfoParams [])
          (HttpResult.response 200 (Json.obj []))).2
        = Except.error (Exn.validationError errs) ∧
      ((⟨"total_count", ValErrKind.missing⟩ : ValidationError) ∈ errs ∨
        (⟨"results", ValErrKind.missing⟩ : ValidationError) ∈ errs) :=
  claim7_amended (buildTrafficInfoParams []) 200 [] (by decide) (Or.inl rfl)

/-- C8: `fetch_screener_data` configures the screener with the predefined
body of a freshly constructed default `FincanceScreenerParams` —
`"day_gainers"` — so its entire behaviour is independent of the
caller-supplied `screenerOptions`: any two validated parameter values yield
the identical upstream interaction and result. -/
theorem claim8_screener_ignores_params :
    (∀ (p : FincanceScreenerParams) (oracle : String → Json),
      (fetch_screener_data p oracle).1 =
        defaultFincanceScreenerParams.screenerOptions) ∧
    (∀ (p : FincanceScreenerParams) (oracle : String → Json),
      (fetch_screener_data p oracle).1 = "day_gainers") ∧
    (∀ (p1 p2 : FincanceScreenerParams) (oracle : String → Json),
      fetch_screener_data p1 oracle = fetch_screener_data p2 oracle) :=
  ⟨fun _ _ => rfl, fun _ _ => rfl, fun _ _ _ => rfl⟩

/-- C9: calling `handle_rail_traffic_info`, `handle_railway_lines` or
`handle_rolling_stock` with `arguments = None` raises a `TypeError` (the
`None` bag is expanded directly by `**arguments`, before validation),
whereas the remaining handlers treat `arguments = None` exactly as the
empty bag, whose validation succeeds with all declared defaults applied. -/
theorem claim9_none_arguments_asymmetry :
    (∀ http, (handle_rail_traffic_info Option.none http).result =
      Except.error Exn.typeError) ∧
    (∀ http, (handle_railway_lines Option.none http).result =
      Except.error Exn.typeError) ∧
    (∀ http, (handle_rolling_stock Option.none http).result =
      Except.error Exn.typeError) ∧
    (∀ http, handle_station_users Option.none http =
      handle_station_users (Option.some ([] : ArgBag)) http) ∧
    validateStationUsersParams [] = Except.ok
      ⟨Option.none, Option.none, Option.none, Option.none, 10, 0,
        Option.none, Option.none, Option.none, false, false⟩ ∧
    (∀ http, handle_target_actual_compared Option.none http =
      handle_target_actual_compared (Option.some ([] : ArgBag)) http) ∧
    validateTargetActualComparedParams [] = Except.ok
      ⟨Option.none, Option.none, Option.none, Option.none, 10, 0,
        Option.none, Option.none, Option.none, false, false⟩ ∧
    (∀ http, handle_station_furnitures Option.none http =
      handle_station_furnitures (Option.some ([] : ArgBag)) http) ∧
    validateStationFurnitureParams [] = Except.ok
      ⟨Option.none, Option.none, Option.none, Option.none, 10, 0,
        Option.none, Option.none, Option.none, false, false⟩ ∧
    (∀ http, handle_station_services Option.none http =
      handle_station_services (Option.some ([] : ArgBag)) http) ∧
    validateStationServiceParams [] = Except.ok
      ⟨Option.none, Option.none, Option.none, Option.none, 10, 0,
        Option.none, Option.none, Option.none, false, false⟩ ∧
    (∀ http, hande_stores_data Option.none http =
      hande_stores_data (Option.some ([] : ArgBag)) http) ∧
    validateStoresParams [] = Except.ok
      ⟨Option.none, Option.none, Option.none, Option.none, 10, 0,
        Option.none, Option.none, Option.none, false, false⟩ ∧
    (∀ oracle, handle_screenerdata Option.none oracle =
      handle_screenerdata (Option.some ([] : ArgBag)) oracle) ∧
    validateFincanceScreenerParams [] = Except.ok ⟨"day_gainers"⟩ := by
  exact ⟨fun _ => rfl, fun _ => rfl, fun _ => rfl,
    fun _ => rfl, rfl, fun _ => rfl, rfl, fun _ => rfl, rfl,
    fun _ => rfl, rfl, fun _ => rfl, rfl, fun _ => rfl, rfl⟩

/-- C10: the fetch functions for station-users, target-actual-compared,
station-furniture, station-services and station-stores build an endpoint
URL that textually ends in the fixed query string `?limit=100`, independent
of the validated `limit`, while the validated `limit` is additionally
passed in the request's query parameters. -/
theorem claim10_fixed_limit100_endpoint :
    (∀ (p : StationUsersParams) (http : HttpResult),
      (fetch_usage_data p http).1.url =
        BASE_URL ++ "/catalog/datasets/anzahl-sbb-bahnhofbenutzer/records"
          ++ "?limit=100" ∧
      ("limit", Value.int p.limit) ∈ (fetch_usage_data p http).1.query) ∧
    (∀ (p : TargetActualComparedParams) (http : HttpResult),
      (fetch_target_actual_compared p http).1.url =
        BASE_URL ++ "/catalog/datasets/ist-daten-sbb/records"
          ++ "?limit=100" ∧
      ("limit", Value.int p.limit) ∈
        (fetch_target_actual_compared p http).1.query) ∧
    (∀ (p : StationFurnitureParams) (http : HttpResult),
      (fetch_station_furnitures p http).1.url =
        BASE_URL ++ "/catalog/datasets/mobiliar-im-bahnhof/records"
          ++ "?limit=100" ∧
      ("limit", Value.int p.limit) ∈
        (fetch_station_furnitures p http).1.query) ∧
    (∀ (p : StationServiceParams) (http : HttpResult),
      (fetch_station_services p http).1.url =
        BASE_URL ++ "/catalog/datasets/haltestelle-offnungszeiten/records"
          ++ "?limit=100" ∧
      ("limit", Value.int p.limit) ∈
        (fetch_station_services p http).1.query) ∧
    (∀ (p : StoresParams) (http : HttpResult),
      (fetch_stores_data p http).1.url =
        BASE_URL ++ "/catalog/datasets/offnungszeiten-shops/records"
          ++ "?limit=100" ∧
      ("limit", Value.int p.limit) ∈ (fetch_stores_data p http).1.query) := by
  refine ⟨?_, ?_, ?_, ?_, ?_⟩ <;>
    (intro p http
     constructor
     · rfl
     · simp [fetch_usage_data, fetch_target_actual_compared,
         fetch_station_furnitures, fetch_station_services, fetch_stores_data,
         httpFetch, stdQueryDump])
